import Mathlib

/-!
# Verification of the trace_titans reconciliation tool

Shallow embedding of `src/main.rs` and `src/receipt.rs` of the
`trace_titans` repository, together with theorems settling the claims
about its specification.

Modelling conventions:

* Rust `u64`/`u32` quantities are modelled as `ℕ`.  The development covers
  the range in which the `u64` arithmetic of the source does not overflow
  (real receipts carry magnitudes that are tiny compared to `2 ^ 64`); the
  one place where a narrowing conversion is part of the defined behaviour
  of the source — the `as u32` cast applied to the uptime quotient in
  `main` — is modelled explicitly by `% 2 ^ 32`.
* Rust `i64` quantities are modelled as `ℤ`, with the truncating (round
  toward zero) division of Rust written out explicitly.
* `f64` usage quantities are modelled as exact rationals `ℚ`; the
  float-to-integer cast `(x * TFT_PRECISION as f64) as u64` truncates
  toward zero and clamps negative values to `0`, which is
  `(q * TFT_PRECISION).floor.toNat` on the modelled range.
* Fallible operations (the division that panics on a zero divisor) are
  modelled with `Option`: `none` stands for the panic.
* `STANDARD_PERIOD_DURATION` lives in `src/period.rs`, which is not among
  the provided sources; the spec fixes it only as a positive constant, so
  every definition that needs it takes the duration as an explicit
  parameter `D`, with `0 < D` as a hypothesis where it matters.
-/

set_option maxRecDepth 100000

/-- Precision of 1 TFT (`TFT_PRECISION` in `main.rs`). -/
def TFT_PRECISION : ℕ := 10000000

/-- Additional scale for percentages (`PERCENTAGE_PRECISION` in `main.rs`). -/
def PERCENTAGE_PRECISION : ℕ := 1000

/-- `node_type` value for certified nodes (`CERTIFIED_NODE_TYPE` in `main.rs`). -/
def CERTIFIED_NODE_TYPE : String := "CERTIFIED"

/-- Cloud units for a node (`CloudUnits` in `receipt.rs`); the `f64` fields
are modelled as exact rationals. -/
structure CloudUnits where
  cu : ℚ
  su : ℚ
  nu : ℚ
  deriving DecidableEq

/-- Resource units as reported by the node (`ResourceUnits` in `receipt.rs`). -/
structure ResourceUnits where
  cru : ℚ
  mru : ℚ
  hru : ℚ
  sru : ℚ
  deriving DecidableEq

/-- Utilization of resources on a node (`ResourceUtilization` in `receipt.rs`). -/
structure ResourceUtilization where
  cru : ℚ
  mru : ℚ
  hru : ℚ
  sru : ℚ
  ip : ℚ
  deriving DecidableEq

/-- Payout for a node (`Reward` in `receipt.rs`): milli-USD and TFT units. -/
structure Reward where
  musd : ℕ
  tft : ℕ
  deriving DecidableEq

/-- Per-unit reward rates (`ResourceRewards` in `receipt.rs`). -/
structure ResourceRewards where
  cu : ℕ
  su : ℕ
  nu : ℕ
  ipv4 : ℕ
  deriving DecidableEq

/-- The values of the initial farming policy (`impl Default for
ResourceRewards` in `receipt.rs`). -/
instance : Inhabited ResourceRewards :=
  ⟨{ cu := 2400, su := 1000, nu := 30, ipv4 := 5 }⟩

/-- A receipt validating the payout of a node (`MintingReceipt` in
`receipt.rs`).  The `period` field has the abstract chain type `Period` in the
source (from the missing `period.rs`); the reconciliation logic never reads
it, so it is modelled as a bare identifier. -/
structure MintingReceipt where
  period : ℕ
  node_id : ℕ
  twin_id : ℕ
  farm_id : ℕ
  farm_name : String
  stellar_payout_address : String
  measured_uptime : ℕ
  /-- TFT price on connection in milli USD. -/
  tft_connection_price : ℕ
  cloud_units : CloudUnits
  resource_units : ResourceUnits
  resource_utilization : ResourceUtilization
  reward : Reward
  carbon_offset : Reward
  /-- Certification type of the node, "Certified" or "DIY". -/
  node_type : String
  farming_policy_id : ℕ
  resource_rewards : ResourceRewards
  deriving DecidableEq

/-- Farming policy 2, taken from chain (`TITAN_RESOURCE_REWARDS` in
`main.rs`). -/
def TITAN_RESOURCE_REWARDS : ResourceRewards :=
  { cu := 3000, su := 1250, nu := 38, ipv4 := 6 }

/-- Model of the Rust cast `(q * TFT_PRECISION as f64) as u64`: multiply by
the precision factor and truncate toward zero, clamping negatives to `0`
(float-to-unsigned casts in Rust saturate below at zero). -/
def scaleTrunc (q : ℚ) : ℕ :=
  (q * (TFT_PRECISION : ℚ)).floor.toNat

/-- The local `full_musd_reward_upscaled` of
`calculate_expected_titan_reward` in `main.rs`: each usage quantity is
scaled and truncated individually, multiplied by its titan rate, and the
four terms are summed. -/
def full_musd_reward_upscaled (r : MintingReceipt) : ℕ :=
  scaleTrunc r.cloud_units.cu * TITAN_RESOURCE_REWARDS.cu
    + scaleTrunc r.cloud_units.su * TITAN_RESOURCE_REWARDS.su
    + scaleTrunc r.cloud_units.nu * TITAN_RESOURCE_REWARDS.nu
    + scaleTrunc r.resource_utilization.ip * TITAN_RESOURCE_REWARDS.ipv4

/-- Calculate the expected reward as if the node had farming policy 2
(`calculate_expected_titan_reward` in `main.rs`).  `D` is the
spec-modelled `STANDARD_PERIOD_DURATION`.  Rust `u64` division panics when
the divisor is zero; the source divides by `tft_connection_price` without
any guard, and the panic is modelled as `none`. -/
def calculate_expected_titan_reward (D : ℕ) (r : MintingReceipt) : Option ℕ :=
  if r.tft_connection_price = 0 then none
  else
    some (full_musd_reward_upscaled r / r.tft_connection_price
      * r.measured_uptime / D)

/-- Aggregated result of a node for one period (`NodePeriodResult` in
`main.rs`). -/
structure NodePeriodResult where
  farming_policy : ℕ
  uptime_percentage : ℕ
  expected_payout : ℕ
  actual_payout : ℕ
  is_certified : Bool
  deriving DecidableEq

/-- `#[derive(Default)]` on `NodePeriodResult`: all numeric fields zero,
not certified. -/
instance : Inhabited NodePeriodResult :=
  ⟨{ farming_policy := 0, uptime_percentage := 0, expected_payout := 0,
     actual_payout := 0, is_certified := false }⟩

/-- `NodePeriodResult::is_titan` in `main.rs`. -/
def NodePeriodResult.is_titan (p : NodePeriodResult) : Bool :=
  p.farming_policy == 2 || (p.farming_policy == 1 && p.is_certified)

/-- Aggregated results of a node (`NodeResult` in `main.rs`): one slot per
recognized period 52–57. -/
structure NodeResult where
  p52 : NodePeriodResult
  p53 : NodePeriodResult
  p54 : NodePeriodResult
  p55 : NodePeriodResult
  p56 : NodePeriodResult
  p57 : NodePeriodResult
  deriving DecidableEq

/-- `#[derive(Default)]` on `NodeResult`: every slot at the neutral
default. -/
instance : Inhabited NodeResult :=
  ⟨{ p52 := default, p53 := default, p54 := default, p55 := default,
     p56 := default, p57 := default }⟩

/-- `NodeResult::is_titan` in `main.rs`: the OR over the six period
slots. -/
def NodeResult.is_titan (n : NodeResult) : Bool :=
  n.p52.is_titan || n.p53.is_titan || n.p54.is_titan || n.p55.is_titan
    || n.p56.is_titan || n.p57.is_titan

/-- The uptime-percentage expression of the aggregation loop in `main`:
`u32::min((measured_uptime * 100 * PERCENTAGE_PRECISION /
STANDARD_PERIOD_DURATION) as u32, 100 * PERCENTAGE_PRECISION)`.  The
`as u32` narrowing cast is defined behaviour in Rust (reduction modulo
`2 ^ 32`) and is modelled explicitly. -/
def uptimePercentage (D : ℕ) (u : ℕ) : ℕ :=
  min ((u * 100 * PERCENTAGE_PRECISION / D) % 2 ^ 32)
    (100 * PERCENTAGE_PRECISION)

/-- The `NodePeriodResult` built from one receipt by the aggregation loop
in `main`.  The `none` of the expected-reward computation (a panic in the
source) propagates. -/
def parseNodePeriod (D : ℕ) (r : MintingReceipt) : Option NodePeriodResult :=
  (calculate_expected_titan_reward D r).map fun expected =>
    { farming_policy := r.farming_policy_id
      uptime_percentage := uptimePercentage D r.measured_uptime
      expected_payout := expected
      actual_payout := r.reward.tft
      is_certified := r.node_type == CERTIFIED_NODE_TYPE }

/-- The `receipts_parsed` map of `main`, built by folding
`BTreeMap::insert` over one node's `(period, receipt)` list.  `insert`
replaces any entry already present under the same key.  A panic while
parsing a receipt (zero connection price) aborts the whole run, hence the
`Option`. -/
def parseAll (D : ℕ) :
    List (ℕ × MintingReceipt) → (ℕ → Option NodePeriodResult) →
    Option (ℕ → Option NodePeriodResult)
  | [], m => some m
  | (p, r) :: rest, m =>
    match parseNodePeriod D r with
    | none => none
    | some v => parseAll D rest fun k => if k = p then some v else m k

/-- The per-node body of `main`'s second loop: parse every receipt of the
node into `receipts_parsed`, then take the entries for periods 52–57
(`remove(&..).unwrap_or_default()`), defaulting each missing slot. -/
def aggregateNode (D : ℕ) (receipts : List (ℕ × MintingReceipt)) :
    Option NodeResult :=
  (parseAll D receipts fun _ => none).map fun m =>
    { p52 := (m 52).getD default
      p53 := (m 53).getD default
      p54 := (m 54).getD default
      p55 := (m 55).getD default
      p56 := (m 56).getD default
      p57 := (m 57).getD default }

/-- The report filter of `main`: a node's row is emitted iff the node was a
titan at some point (`if !result.is_titan() { continue; }`). -/
def reportNodes (l : List (ℕ × NodeResult)) : List (ℕ × NodeResult) :=
  l.filter fun p => p.2.is_titan

/-- Decimal representation of a natural number, as produced by Rust's
`Display` (`Nat.repr` agrees with it). -/
def natRepr (n : ℕ) : String :=
  Nat.repr n

/-- Decimal representation of an integer, as produced by Rust's `Display`
for `i64`: a leading minus sign iff the value is negative. -/
def intRepr (a : ℤ) : String :=
  if a < 0 then "-" ++ natRepr a.natAbs else natRepr a.natAbs

/-- Rust's `{:07}` formatting of an unsigned value: the decimal digits,
left-padded with zeros to width 7. -/
def zeroPad7 (n : ℕ) : String :=
  String.mk (List.replicate (7 - (natRepr n).length) '0') ++ natRepr n

/-- Rust `i64` division truncates toward zero; `b` is the (positive)
constant divisor used by the source. -/
def i64DivTrunc (a : ℤ) (b : ℕ) : ℤ :=
  if 0 ≤ a then ((a.toNat / b : ℕ) : ℤ) else -(((-a).toNat / b : ℕ) : ℤ)

/-- `format_tft` in `main.rs`: `format!("{}.{:07}", amount / TFT_PRECISION,
amount % TFT_PRECISION)`. -/
def format_tft (amount : ℕ) : String :=
  natRepr (amount / TFT_PRECISION) ++ "." ++ zeroPad7 (amount % TFT_PRECISION)

/-- `format_diff_tft` in `main.rs`: `format!("{}.{:07}", amount /
TFT_PRECISION as i64, amount.abs() % TFT_PRECISION as i64)`; the division
is the truncating `i64` division and the remainder is taken on the
absolute value. -/
def format_diff_tft (amount : ℤ) : String :=
  intRepr (i64DivTrunc amount TFT_PRECISION) ++ "."
    ++ zeroPad7 (amount.natAbs % TFT_PRECISION)

/-- `format_percentage` in `main.rs`: `format!("{}.{}%", p /
PERCENTAGE_PRECISION, p % PERCENTAGE_PRECISION)` — note the unpadded `{}`
for the fractional part. -/
def format_percentage (p : ℕ) : String :=
  natRepr (p / PERCENTAGE_PRECISION) ++ "." ++ natRepr (p % PERCENTAGE_PRECISION)
    ++ "%"

/-- The expected-reward formula exactly as the specification words it:
per-dimension scale-and-truncate, multiply each truncated quantity by its
reference rate (cu 3000, su 1250, nu 38, ip 6), sum the four terms,
floor-divide by the connection price with no additional precision scaling,
then multiply by the measured uptime before dividing by the standard
period duration `D`. -/
def specOrderedExpectedReward (D : ℕ) (r : MintingReceipt) : ℕ :=
  (scaleTrunc r.cloud_units.cu * 3000 + scaleTrunc r.cloud_units.su * 1250
      + scaleTrunc r.cloud_units.nu * 38
      + scaleTrunc r.resource_utilization.ip * 6)
    / r.tft_connection_price * r.measured_uptime / D

/-- A baseline receipt with zero resource usage, used to instantiate the
theorems at concrete inputs. -/
def sampleReceipt : MintingReceipt :=
  { period := 52, node_id := 1, twin_id := 1, farm_id := 1,
    farm_name := "farm", stellar_payout_address := "addr",
    measured_uptime := 0, tft_connection_price := 1,
    cloud_units := { cu := 0, su := 0, nu := 0 },
    resource_units := { cru := 0, mru := 0, hru := 0, sru := 0 },
    resource_utilization := { cru := 0, mru := 0, hru := 0, sru := 0, ip := 0 },
    reward := { musd := 0, tft := 1 },
    carbon_offset := { musd := 0, tft := 0 },
    node_type := "DIY", farming_policy_id := 2,
    resource_rewards := default }

/-- A receipt with one cloud unit of compute, connection price 3 and five
time units of uptime. -/
def titanReceipt : MintingReceipt :=
  { sampleReceipt with
    cloud_units := { cu := 1, su := 0, nu := 0 },
    tft_connection_price := 3, measured_uptime := 5 }

/-- `titanReceipt` with a different declared resource-reward schedule and a
different farming policy identifier. -/
def altScheduleReceipt : MintingReceipt :=
  { titanReceipt with
    resource_rewards := { cu := 9, su := 9, nu := 9, ipv4 := 9 },
    farming_policy_id := 7 }

/-- A node aggregate whose only titan slot is period 52. -/
def sampleNodeRes : NodeResult :=
  { p52 := { farming_policy := 2, uptime_percentage := 0, expected_payout := 0,
             actual_payout := 1, is_certified := false },
    p53 := default, p54 := default, p55 := default, p56 := default,
    p57 := default }

/-- The aggregate produced from `sampleReceipt` filed under period 54. -/
def sampleAggregated : NodeResult :=
  { p52 := default, p53 := default,
    p54 := { farming_policy := 2, uptime_percentage := 0, expected_payout := 0,
             actual_payout := 1, is_certified := false },
    p55 := default, p56 := default, p57 := default }

/-! ## Helper lemmas -/

/-- Dividing twice the dividend is at least twice the quotient. -/
theorem two_mul_div_lower (a D : ℕ) : 2 * (a / D) ≤ 2 * a / D := by
  rcases Nat.eq_zero_or_pos D with h | h
  · subst h; simp
  · rw [Nat.le_div_iff_mul_le h]
    calc 2 * (a / D) * D = 2 * (a / D * D) := by ring
      _ ≤ 2 * a := Nat.mul_le_mul (le_refl 2) (Nat.div_mul_le_self a D)

/-- Dividing twice the dividend overshoots twice the quotient by at most
one. -/
theorem two_mul_div_upper (a D : ℕ) (hD : 0 < D) :
    2 * a / D ≤ 2 * (a / D) + 1 := by
  have hmod : a % D < D := Nat.mod_lt a hD
  have ha : 2 * a = 2 * (a % D) + 2 * (a / D) * D := by
    conv_lhs => rw [← Nat.div_add_mod a D]
    ring
  rw [ha, Nat.add_mul_div_right _ _ hD]
  have hq : 2 * (a % D) / D < 2 := by
    rw [Nat.div_lt_iff_lt_mul hD]
    omega
  omega

/-- Scaling the rational zero truncates to zero. -/
theorem scaleTrunc_zero : scaleTrunc 0 = 0 := by
  unfold scaleTrunc
  rw [zero_mul]
  rfl

/-- Scaling the rational one yields exactly the precision factor. -/
theorem scaleTrunc_one : scaleTrunc 1 = TFT_PRECISION := by
  unfold scaleTrunc
  rw [one_mul]
  rfl

/-! ## The claims -/

/-- Claim C1: for every receipt with a positive connection price, the
expected reward is computed by exactly the order of operations the
specification describes — per-dimension scale-and-truncate before the rate
multiplication, sum, floor division by the connection price with no extra
scaling, then multiply by the measured uptime before dividing by the
standard period duration. -/
theorem expected_reward_matches_spec_order (D : ℕ) (r : MintingReceipt)
    (hp : 0 < r.tft_connection_price) :
    calculate_expected_titan_reward D r = some (specOrderedExpectedReward D r) := by
  simp [calculate_expected_titan_reward, full_musd_reward_upscaled,
    specOrderedExpectedReward, TITAN_RESOURCE_REWARDS, hp.ne']

/-- Witness for C1 at a concrete receipt and period duration. -/
theorem expected_reward_matches_spec_order_witness :
    calculate_expected_titan_reward 7 titanReceipt
      = some (specOrderedExpectedReward 7 titanReceipt) :=
  expected_reward_matches_spec_order 7 titanReceipt (by decide)

/-- Claim C2: the code does not guard the division by the connection
price.  On a receipt whose connection price is zero the unguarded `u64`
division panics (modelled as `none`): the run aborts with a generic
divide-by-zero trap instead of rejecting the receipt or reporting which
receipt triggered the error. -/
theorem zero_connection_price_panics :
    calculate_expected_titan_reward 100
      { sampleReceipt with tft_connection_price := 0 } = none := by
  rfl

/-- Claim C3: two receipts for the same (node, period) pair are silently
collapsed by `BTreeMap::insert` — the aggregation succeeds and keeps only
the later receipt (actual payout 2), with the earlier receipt (actual
payout 1) overwritten and no error surfaced. -/
theorem duplicate_receipt_silently_overwritten :
    aggregateNode 100
        [(52, sampleReceipt),
         (52, { sampleReceipt with reward := { musd := 0, tft := 2 } })]
      = some
        { p52 := { farming_policy := 2, uptime_percentage := 0,
                   expected_payout := 0, actual_payout := 2,
                   is_certified := false },
          p53 := default, p54 := default, p55 := default, p56 := default,
          p57 := default } := by
  rfl

/-- Claim C4: for a difference of exactly `-1` subunit the rendered string
is `"0.0000001"` — the truncating integer division yields integer part `0`
and the minus sign is lost, so the output coincides with the rendering of
`+1` subunit instead of showing a negative value. -/
theorem negative_subunit_diff_loses_sign :
    format_diff_tft (-1) = "0.0000001" ∧ format_diff_tft (-1) = format_tft 1 := by
  decide

/-- Claim C5: a period result is titan iff its farming policy is 2, or its
farming policy is 1 and the node is certified; every other combination is
not titan. -/
theorem period_is_titan_characterization (p : NodePeriodResult) :
    p.is_titan = true ↔
      p.farming_policy = 2 ∨ (p.farming_policy = 1 ∧ p.is_certified = true) := by
  simp [NodePeriodResult.is_titan]

/-- Counterexample to claim C6: with period duration 100000 and measured
uptime `2 ^ 32`, the exact ratio `2 ^ 32 * 100 * 1000 / 100000 = 2 ^ 32`
far exceeds the maximum percentage, yet the `as u32` cast wraps the `u64`
quotient to `0`, so the derived percentage is `0`, not `100 * 1000`. -/
theorem uptime_percentage_wraps_counterexample :
    100 * 1000 < 2 ^ 32 * 100 * 1000 / 100000 ∧
      uptimePercentage 100000 (2 ^ 32) = 0 := by
  decide

/-- Claim C6 (amended): as long as the `u64` product and the `u32` cast of
the uptime computation stay in range, the derived uptime percentage is
clamped to at most `100 * 1000`, and it equals exactly `100 * 1000`
whenever the raw ratio exceeds that maximum. -/
theorem uptime_percentage_clamped_in_range (D u : ℕ)
    (_h64 : u * 100 * PERCENTAGE_PRECISION < 2 ^ 64)
    (hfit : u * 100 * PERCENTAGE_PRECISION / D < 2 ^ 32)
    (hexceed : 100 * PERCENTAGE_PRECISION < u * 100 * PERCENTAGE_PRECISION / D) :
    uptimePercentage D u = 100 * PERCENTAGE_PRECISION ∧
      uptimePercentage D u ≤ 100 * PERCENTAGE_PRECISION := by
  constructor
  · rw [uptimePercentage, Nat.mod_eq_of_lt hfit]
    exact min_eq_right hexceed.le
  · exact min_le_right _ _

/-- Witness for the amended C6 at duration 100 and uptime 200 (twice the
period): the percentage is exactly 100.000%. -/
theorem uptime_percentage_clamped_in_range_witness :
    uptimePercentage 100 200 = 100 * PERCENTAGE_PRECISION ∧
      uptimePercentage 100 200 ≤ 100 * PERCENTAGE_PRECISION :=
  uptime_percentage_clamped_in_range 100 200 (by decide) (by decide) (by decide)

/-- Claim C7: a node's row appears in the report iff some period slot of
its aggregate is titan; a node whose timeline was built from a single
receipt (filed under period 54) has every other slot at the neutral
default, its node-level titan flag reduces to that one slot's flag, and
the neutral default is the all-zero, non-certified, non-titan result. -/
theorem report_rows_and_neutral_defaults
    (l : List (ℕ × NodeResult)) (e : ℕ × NodeResult)
    (D : ℕ) (r : MintingReceipt) (res : NodeResult)
    (hagg : aggregateNode D [(54, r)] = some res) :
    (e ∈ reportNodes l ↔ e ∈ l ∧
      (e.2.p52.is_titan = true ∨ e.2.p53.is_titan = true
        ∨ e.2.p54.is_titan = true ∨ e.2.p55.is_titan = true
        ∨ e.2.p56.is_titan = true ∨ e.2.p57.is_titan = true)) ∧
    (res.p52 = default ∧ res.p53 = default ∧ res.p55 = default
      ∧ res.p56 = default ∧ res.p57 = default) ∧
    NodeResult.is_titan res = res.p54.is_titan ∧
    (default : NodePeriodResult) =
      { farming_policy := 0, uptime_percentage := 0, expected_payout := 0,
        actual_payout := 0, is_certified := false } ∧
    NodePeriodResult.is_titan default = false := by
  refine ⟨?_, ?_⟩
  · rw [reportNodes, List.mem_filter]
    simp [NodeResult.is_titan, or_assoc]
  · cases hpr : parseNodePeriod D r with
    | none => simp [aggregateNode, parseAll, hpr] at hagg
    | some v =>
      simp only [aggregateNode, parseAll, hpr, Option.map_some']
        at hagg
      rw [Option.some.injEq] at hagg
      subst hagg
      refine ⟨⟨rfl, rfl, rfl, rfl, rfl⟩, ?_, rfl, rfl⟩
      simp [NodeResult.is_titan, NodePeriodResult.is_titan,
        show (default : NodePeriodResult)
            = { farming_policy := 0, uptime_percentage := 0,
                expected_payout := 0, actual_payout := 0,
                is_certified := false } from rfl]

/-- Witness for C7: a one-row report for a node titan via period 52, and a
timeline aggregated from one period-54 receipt. -/
theorem report_rows_and_neutral_defaults_witness :
    ((1, sampleNodeRes) ∈ reportNodes [(1, sampleNodeRes)] ↔
      (1, sampleNodeRes) ∈ [(1, sampleNodeRes)] ∧
      (sampleNodeRes.p52.is_titan = true ∨ sampleNodeRes.p53.is_titan = true
        ∨ sampleNodeRes.p54.is_titan = true ∨ sampleNodeRes.p55.is_titan = true
        ∨ sampleNodeRes.p56.is_titan = true
        ∨ sampleNodeRes.p57.is_titan = true)) ∧
    (sampleAggregated.p52 = default ∧ sampleAggregated.p53 = default
      ∧ sampleAggregated.p55 = default ∧ sampleAggregated.p56 = default
      ∧ sampleAggregated.p57 = default) ∧
    NodeResult.is_titan sampleAggregated = sampleAggregated.p54.is_titan ∧
    (default : NodePeriodResult) =
      { farming_policy := 0, uptime_percentage := 0, expected_payout := 0,
        actual_payout := 0, is_certified := false } ∧
    NodePeriodResult.is_titan default = false :=
  report_rows_and_neutral_defaults [(1, sampleNodeRes)] (1, sampleNodeRes)
    100 sampleReceipt sampleAggregated (by rfl)

/-- Claim C9: for a receipt with positive connection price, the expected
reward is nonnegative, and doubling the measured uptime while holding
resource usage and connection price fixed scales the expected reward by
the same factor up to integer-truncation error of at most one unit per
summed term. -/
theorem expected_reward_nonneg_and_uptime_proportional
    (D : ℕ) (r : MintingReceipt) (v w : ℕ) (hD : 0 < D)
    (hp : 0 < r.tft_connection_price)
    (hv : calculate_expected_titan_reward D r = some v)
    (hw : calculate_expected_titan_reward D
      { r with measured_uptime := 2 * r.measured_uptime } = some w) :
    0 ≤ v ∧ 2 * v ≤ w ∧ w ≤ 2 * v + 4 := by
  have hfull : full_musd_reward_upscaled
      { r with measured_uptime := 2 * r.measured_uptime }
        = full_musd_reward_upscaled r := rfl
  simp only [calculate_expected_titan_reward, hp.ne', if_false, ite_false,
    if_neg, hfull, Option.some.injEq] at hv hw
  subst hv
  subst hw
  have h2 : full_musd_reward_upscaled r / r.tft_connection_price
      * (2 * r.measured_uptime)
        = 2 * (full_musd_reward_upscaled r / r.tft_connection_price
          * r.measured_uptime) := by ring
  refine ⟨Nat.zero_le _, ?_, ?_⟩
  · calc 2 * (full_musd_reward_upscaled r / r.tft_connection_price
          * r.measured_uptime / D)
        ≤ 2 * (full_musd_reward_upscaled r / r.tft_connection_price
          * r.measured_uptime) / D := two_mul_div_lower _ _
      _ = full_musd_reward_upscaled r / r.tft_connection_price
          * (2 * r.measured_uptime) / D := by rw [h2]
  · calc full_musd_reward_upscaled r / r.tft_connection_price
          * (2 * r.measured_uptime) / D
        = 2 * (full_musd_reward_upscaled r / r.tft_connection_price
          * r.measured_uptime) / D := by rw [h2]
      _ ≤ 2 * (full_musd_reward_upscaled r / r.tft_connection_price
          * r.measured_uptime / D) + 1 := two_mul_div_upper _ _ hD
      _ ≤ 2 * (full_musd_reward_upscaled r / r.tft_connection_price
          * r.measured_uptime / D) + 4 := by omega

/-- Witness for C9: `titanReceipt` at duration 7 yields 7142857142, and
with doubled uptime 14285714285 = 2 * 7142857142 + 1. -/
theorem expected_reward_nonneg_and_uptime_proportional_witness :
    0 ≤ 7142857142 ∧ 2 * 7142857142 ≤ 14285714285 ∧
      14285714285 ≤ 2 * 7142857142 + 4 :=
  expected_reward_nonneg_and_uptime_proportional 7 titanReceipt
    7142857142 14285714285 (by decide) (by decide)
    (by
      simp [calculate_expected_titan_reward, full_musd_reward_upscaled,
        titanReceipt, sampleReceipt, scaleTrunc_one, scaleTrunc_zero,
        TITAN_RESOURCE_REWARDS, TFT_PRECISION])
    (by
      simp [calculate_expected_titan_reward, full_musd_reward_upscaled,
        titanReceipt, sampleReceipt, scaleTrunc_one, scaleTrunc_zero,
        TITAN_RESOURCE_REWARDS, TFT_PRECISION])

/-- Claim C10: the expected-reward computation uses the fixed titan
reference schedule (cu 3000, su 1250, nu 38, ipv4 6); two receipts that
agree on cloud units, network utilization, connection price and measured
uptime get the same expected reward no matter what resource-reward
schedule or farming policy they declare, while the actual payout recorded
in the aggregate is the one copied from the receipt itself. -/
theorem expected_reward_ignores_declared_schedule
    (D : ℕ) (r1 r2 : MintingReceipt) (x : NodePeriodResult)
    (hcu : r1.cloud_units = r2.cloud_units)
    (hip : r1.resource_utilization.ip = r2.resource_utilization.ip)
    (hpr : r1.tft_connection_price = r2.tft_connection_price)
    (hu : r1.measured_uptime = r2.measured_uptime)
    (hx : parseNodePeriod D r1 = some x) :
    calculate_expected_titan_reward D r1
        = calculate_expected_titan_reward D r2 ∧
      TITAN_RESOURCE_REWARDS
        = { cu := 3000, su := 1250, nu := 38, ipv4 := 6 } ∧
      x.actual_payout = r1.reward.tft := by
  refine ⟨?_, rfl, ?_⟩
  · unfold calculate_expected_titan_reward full_musd_reward_upscaled
    rw [hcu, hip, hpr, hu]
  · unfold parseNodePeriod at hx
    rcases Option.map_eq_some'.mp hx with ⟨a, _, hfx⟩
    subst hfx
    rfl

/-- Witness for C10: `titanReceipt` against the same receipt with declared
schedule (9, 9, 9, 9) and farming policy 7. -/
theorem expected_reward_ignores_declared_schedule_witness :
    calculate_expected_titan_reward 7 titanReceipt
        = calculate_expected_titan_reward 7 altScheduleReceipt ∧
      TITAN_RESOURCE_REWARDS
        = { cu := 3000, su := 1250, nu := 38, ipv4 := 6 } ∧
      ({ farming_policy := 2, uptime_percentage := 71428,
         expected_payout := 7142857142, actual_payout := 1,
         is_certified := false } : NodePeriodResult).actual_payout
        = titanReceipt.reward.tft :=
  expected_reward_ignores_declared_schedule 7 titanReceipt altScheduleReceipt
    { farming_policy := 2, uptime_percentage := 71428,
      expected_payout := 7142857142, actual_payout := 1,
      is_certified := false }
    rfl rfl rfl rfl
    (by
      simp [parseNodePeriod, calculate_expected_titan_reward,
        full_musd_reward_upscaled, titanReceipt, sampleReceipt, scaleTrunc_one,
        scaleTrunc_zero, TITAN_RESOURCE_REWARDS, TFT_PRECISION,
        uptimePercentage, PERCENTAGE_PRECISION, CERTIFIED_NODE_TYPE])

/-- Claim C8: `format_percentage` does not zero-pad the fractional part:
`p = 5` (0.005%) renders as `"0.5%"` instead of a three-digit fraction,
while `format_tft` does render exactly seven zero-padded fractional
digits. -/
theorem percentage_formatting_drops_leading_zeros :
    format_percentage 5 = "0.5%" ∧ format_tft 1 = "0.0000001"
      ∧ format_tft 10000000 = "1.0000000" := by
  decide
